import Mathlib

/-!
Verification of the report scoring and triage pipeline of the SafeGuard
repository (Express/Sequelize backend).  The definitions below are a shallow
embedding of:

* `src/server/src/controllers/authController.js` — `submitReport`,
  `getPriorityQueue`, `updateReportStatus`, `getFileType`;
* `src/server/src/models/Report.js` — the `Report`, `ReportAnalysis` and
  `ReportMedia` row shapes and their creation defaults;
* `src/unnamed/part_011` — the `validateReport` express-validator chain and
  the status validation on `PATCH /:id/status`;
* `src/server/src/middleware/upload.js` — the multer limits (5 files,
  10 MB per file).

Numeric report fields (scores, probabilities, coordinates) are JS numbers in
the source; they are embedded as exact rationals `ℚ`.  Database rows are
records in an explicit `DB` state; the Sequelize transaction is embedded as an
`Except`-valued transaction body with explicit fault-injection flags for the
individual `create` calls (commit appends the rows, a thrown error rolls the
state back unchanged).  The external AI scoring service reached through
`axios.post` either rejects (network error, timeout, non-2xx — axios rejects
on all of these), resolves with a falsy `data` body, or resolves with a parsed
response record; these three outcomes are the `OracleOutcome` type, mirroring
the `try { const aiResponse = await axios.post(...); if (aiResponse.data)
{ ... } } catch (aiError) { ... }` structure of `submitReport`.
-/

namespace SafeGuard

/-- Lifecycle status of a report: the `status` enum of
`src/server/src/models/Report.js` (`pending`, `reviewing`, `assigned`,
`resolved`, `closed`, default `pending`). -/
inductive Status
  | pending
  | reviewing
  | assigned
  | resolved
  | closed
deriving DecidableEq, Repr

/-- Position of a status in the forward lifecycle order
pending → reviewing → assigned → resolved → closed (used to state the
monotonicity claim; the order itself comes from the spec's lifecycle list). -/
def statusRank : Status → Nat
  | .pending => 0
  | .reviewing => 1
  | .assigned => 2
  | .resolved => 3
  | .closed => 4

/-- String form of a status, as it appears in request bodies and in the
activity-log description built by `updateReportStatus`. -/
def statusString : Status → String
  | .pending => "pending"
  | .reviewing => "reviewing"
  | .assigned => "assigned"
  | .resolved => "resolved"
  | .closed => "closed"

/-- Media file kind: the `fileType` enum of `ReportMedia`
(`src/server/src/models/Report.js`). -/
inductive FileKind
  | image
  | video
  | audio
  | document
deriving DecidableEq, Repr

/-- `getFileType` helper at the bottom of the report controller
(`src/server/src/controllers/authController.js`): classifies a mimetype by
its leading component, defaulting to `document`. -/
def getFileType (mimetype : String) : FileKind :=
  if mimetype.startsWith "image/" then .image
  else if mimetype.startsWith "video/" then .video
  else if mimetype.startsWith "audio/" then .audio
  else .document

/-- One uploaded multer file as the controller sees it in `req.files`
(fields `filename`, `mimetype`, `size` are the ones `submitReport` reads). -/
structure UploadedFile where
  filename : String
  mimetype : String
  size : Nat
deriving DecidableEq, Repr

/-- A persisted `reports` row (`src/server/src/models/Report.js`).
`emergencyScore` is nullable (`DECIMAL(5,2)`, `allowNull: true`), `isSpam`
defaults to `false`, `status` defaults to `pending`. -/
structure ReportRow where
  id : Nat
  userId : Option Nat
  incidentType : String
  description : String
  locationLat : Option ℚ
  locationLng : Option ℚ
  locationAddress : Option String
  isAnonymous : Bool
  emergencyScore : Option ℚ
  status : Status
  isSpam : Bool
deriving DecidableEq, Repr

/-- A persisted `report_media` row (`ReportMedia` model). -/
structure MediaRow where
  reportId : Nat
  fileType : FileKind
  filePath : String
  fileName : String
  fileSize : Nat
deriving DecidableEq, Repr

/-- A persisted `report_analysis` row (`ReportAnalysis` model).  The
controller always supplies every field on both creation paths, so the fields
are embedded as plain values. -/
structure AnalysisRow where
  reportId : Nat
  textSeverityScore : ℚ
  mediaSeverityScore : ℚ
  userCredibilityScore : ℚ
  spamProbability : ℚ
  emergencyScore : ℚ
  aiNotes : String
deriving DecidableEq, Repr

/-- A persisted `case_activities` row (`CaseActivity` model) as written by
`updateReportStatus`. -/
structure ActivityRow where
  reportId : Nat
  userId : Nat
  activityType : String
  description : String
deriving DecidableEq, Repr

/-- The slice of a `users` row the report pipeline reads: identity and the
stored credibility score (`req.user.credibilityScore`). -/
structure UserRow where
  id : Nat
  credibilityScore : ℚ
deriving DecidableEq, Repr

/-- The relational store as the report pipeline touches it. -/
structure DB where
  reports : List ReportRow
  media : List MediaRow
  analyses : List AnalysisRow
  activities : List ActivityRow
deriving DecidableEq, Repr

/-- The `location` JSON object of a submission body (`lat`, `lng`,
`address`), each field optional. -/
structure GeoLocation where
  lat : Option ℚ
  lng : Option ℚ
  address : Option String
deriving DecidableEq, Repr

/-- The `contactInfo` JSON object the client form sends (`name`, `email`,
`phone`).  The server-side controller and validator never read it; it is
carried here so that claims about contact-info validation can be stated. -/
structure ContactInfo where
  name : Option String
  email : Option String
  phone : Option String
deriving DecidableEq, Repr

/-- A report-submission request after body parsing and multer: the fields
`submitReport` and its validator chain look at. -/
structure SubmitRequest where
  incidentType : String
  description : String
  isAnonymous : Bool
  location : Option GeoLocation
  contactInfo : Option ContactInfo
  files : List UploadedFile
deriving DecidableEq, Repr

/-- A parsed scoring-service response body
(`{textSeverityScore, mediaSeverityScore, userCredibilityScore,
spamProbability, emergencyScore, aiNotes}`), exactly the fields
`submitReport` destructures from `aiResponse.data`. -/
structure OracleResponse where
  textSeverityScore : ℚ
  mediaSeverityScore : ℚ
  userCredibilityScore : ℚ
  spamProbability : ℚ
  emergencyScore : ℚ
  aiNotes : String
deriving DecidableEq, Repr

/-- Outcome of the `axios.post(AI_SERVICE_URL + '/analyze', ...)` call:
it rejects (network error, timeout, or non-2xx status — axios rejects on all
of these, landing in the `catch (aiError)` block), or it resolves with a
falsy `data` body (the `if (aiResponse.data)` guard then skips analysis
creation), or it resolves with a parsed response record. -/
inductive OracleOutcome
  | throws
  | okEmpty
  | ok (r : OracleResponse)
deriving DecidableEq, Repr

/-- Fault-injection flags for the persistence calls inside the submission
transaction: whether `Report.create`, the `ReportMedia.create` batch, or
`ReportAnalysis.create` throws.  A single flag covers both analysis creates
because once a statement fails inside the transaction, the fallback create
attempted by the `catch (aiError)` block fails the same way. -/
structure Faults where
  reportCreateFails : Bool
  mediaCreateFails : Bool
  analysisCreateFails : Bool
deriving DecidableEq, Repr

/-- No persistence fault: every `create` succeeds. -/
def noFaults : Faults := ⟨false, false, false⟩

/-- `body('incidentType').isIn(['physical', 'cyber', 'harassment', 'other'])`
from the `validateReport` chain in `src/unnamed/part_011`. -/
def validIncidentType (s : String) : Bool :=
  s == "physical" || s == "cyber" || s == "harassment" || s == "other"

/-- `body('location.lat').optional().isFloat({ min: -90, max: 90 })`. -/
def latOk : Option ℚ → Bool
  | none => true
  | some v => decide (-90 ≤ v) && decide (v ≤ 90)

/-- `body('location.lng').optional().isFloat({ min: -180, max: 180 })`. -/
def lngOk : Option ℚ → Bool
  | none => true
  | some v => decide (-180 ≤ v) && decide (v ≤ 180)

/-- The `validateReport` express-validator chain of `src/unnamed/part_011`
(lines 113–134): incident type in the enum, description non-empty and at
least 20 characters, optional latitude in [-90, 90], optional longitude in
[-180, 180].  `isAnonymous` is validated as a boolean, which the embedding's
`Bool` field satisfies by type.  Note that the chain contains no rule for
`contactInfo`. -/
def validateReport (req : SubmitRequest) : Bool :=
  validIncidentType req.incidentType &&
  !req.description.isEmpty &&
  decide (20 ≤ req.description.length) &&
  latOk (req.location.bind GeoLocation.lat) &&
  lngOk (req.location.bind GeoLocation.lng)

/-- Maximum file size enforced by the multer middleware
(`src/server/src/middleware/upload.js`): `10 * 1024 * 1024` bytes. -/
def maxFileSize : Nat := 10 * 1024 * 1024

/-- Maximum number of media parts accepted by the route
(`uploadMiddleware.array('media', 5)` in `src/unnamed/part_011`). -/
def maxMediaFiles : Nat := 5

/-- The multer limits on a submission's file parts: at most 5 files, each at
most 10 MB (exceeding either limit makes multer error before the controller
runs).  The middleware additionally applies a file-type filter
(`fileFilter` in `upload.js`), which no claim refers to and which is not
modelled. -/
def uploadWithinLimits (files : List UploadedFile) : Bool :=
  decide (files.length ≤ maxMediaFiles) &&
  files.all (fun f => decide (f.size ≤ maxFileSize))

/-- JS `x || null` on an optional numeric field (`location?.lat || null`):
`0` is falsy in JS, so a present zero is stored as null. -/
def jsOrNull : Option ℚ → Option ℚ
  | some x => if x == 0 then none else some x
  | none => none

/-- JS `x || null` on an optional string field
(`location?.address || null`): the empty string is falsy. -/
def jsOrNullString : Option String → Option String
  | some s => if s.isEmpty then none else some s
  | none => none

/-- The `Report.create({...})` row built at the top of the submission
transaction: caller-supplied fields, `status: 'pending'`, and the model
defaults `emergencyScore = null` and `isSpam = false`. -/
def newReportRow (newId : Nat) (req : SubmitRequest) (user : Option UserRow) :
    ReportRow :=
  { id := newId
    userId := user.map UserRow.id
    incidentType := req.incidentType
    description := req.description
    locationLat := jsOrNull (req.location.bind GeoLocation.lat)
    locationLng := jsOrNull (req.location.bind GeoLocation.lng)
    locationAddress := jsOrNullString (req.location.bind GeoLocation.address)
    isAnonymous := req.isAnonymous
    emergencyScore := none
    status := .pending
    isSpam := false }

/-- One `ReportMedia.create({...})` row for an uploaded file. -/
def mediaRowOf (newId : Nat) (file : UploadedFile) : MediaRow :=
  { reportId := newId
    fileType := getFileType file.mimetype
    filePath := "/uploads/" ++ file.filename
    fileName := file.filename
    fileSize := file.size }

/-- The `ReportAnalysis.create({...})` row on the oracle success path: every
field, the composite `emergencyScore` included, is copied verbatim from the
response body (`emergencyScore: calculatedScore`). -/
def successAnalysisRow (newId : Nat) (r : OracleResponse) : AnalysisRow :=
  { reportId := newId
    textSeverityScore := r.textSeverityScore
    mediaSeverityScore := r.mediaSeverityScore
    userCredibilityScore := r.userCredibilityScore
    spamProbability := r.spamProbability
    emergencyScore := r.emergencyScore
    aiNotes := r.aiNotes }

/-- `req.user ? req.user.credibilityScore : 1` on the fallback path. -/
def reporterCredibility : Option UserRow → ℚ
  | some u => u.credibilityScore
  | none => 1

/-- The fallback `ReportAnalysis.create({...})` row written in the
`catch (aiError)` block: zero severities, the reporter's stored credibility
(or 1), zero spam probability, composite 0, and the unavailability note. -/
def fallbackAnalysisRow (newId : Nat) (user : Option UserRow) : AnalysisRow :=
  { reportId := newId
    textSeverityScore := 0
    mediaSeverityScore := 0
    userCredibilityScore := reporterCredibility user
    spamProbability := 0
    emergencyScore := 0
    aiNotes := "AI analysis unavailable" }

/-- The report row after the success-path
`report.update({ emergencyScore, isSpam: spamProbability > 0.8 })`. -/
def scoredReportRow (newId : Nat) (req : SubmitRequest) (user : Option UserRow)
    (r : OracleResponse) : ReportRow :=
  { newReportRow newId req user with
    emergencyScore := some r.emergencyScore
    isSpam := decide (r.spamProbability > 0.8) }

/-- What the submission transaction commits on success: the (possibly
score-updated) report row, the media rows, the zero-or-one analysis rows, and
the value of the controller's local `emergencyScore` variable used in the
HTTP response (initialised to 0, overwritten only on the success path). -/
structure TxResult where
  report : ReportRow
  mediaRows : List MediaRow
  analysisRows : List AnalysisRow
  responseScore : ℚ
deriving DecidableEq, Repr

/-- Body of the `sequelize.transaction()` in `submitReport`:
`Report.create`, the `ReportMedia.create` batch (only runs when files are
present), then the oracle call with its three outcomes — success-path
analysis create plus report update, nothing on a falsy body, fallback
analysis create in the `catch`.  Any persistence fault makes the body throw
(`Except.error`), which the controller answers with
`transaction.rollback()`. -/
def submitTx (newId : Nat) (req : SubmitRequest) (user : Option UserRow)
    (oracle : OracleOutcome) (f : Faults) : Except Unit TxResult :=
  if f.reportCreateFails then .error () else
  if f.mediaCreateFails && !req.files.isEmpty then .error () else
  match oracle with
  | .ok r =>
      if f.analysisCreateFails then .error () else
      .ok { report := scoredReportRow newId req user r
            mediaRows := req.files.map (mediaRowOf newId)
            analysisRows := [successAnalysisRow newId r]
            responseScore := r.emergencyScore }
  | .okEmpty =>
      .ok { report := newReportRow newId req user
            mediaRows := req.files.map (mediaRowOf newId)
            analysisRows := []
            responseScore := 0 }
  | .throws =>
      if f.analysisCreateFails then .error () else
      .ok { report := newReportRow newId req user
            mediaRows := req.files.map (mediaRowOf newId)
            analysisRows := [fallbackAnalysisRow newId user]
            responseScore := 0 }

/-- The report object in the 201 response body of `submitReport`. -/
structure SubmitResponse where
  reportId : Nat
  incidentType : String
  description : String
  isAnonymous : Bool
  status : Status
  emergencyScore : ℚ
deriving DecidableEq, Repr

/-- Outcome of one `submitReport` request, each constructor carrying the
database state after the request: a 400 validation rejection (issued before
the transaction starts), a server error after rollback (the error is
rethrown to `next(error)`), or the 201 success response after commit. -/
inductive SubmitOutcome
  | validationError (db : DB)
  | serverError (db : DB)
  | success (db : DB) (resp : SubmitResponse)
deriving DecidableEq, Repr

/-- `submitReport` (`src/server/src/controllers/authController.js`,
lines 247–379): reject on validation errors before any persistence,
otherwise run the transaction body; commit appends the created rows, an
error rolls back to the original state and reports a server error. -/
def submitReport (db : DB) (newId : Nat) (req : SubmitRequest)
    (user : Option UserRow) (oracle : OracleOutcome) (f : Faults) :
    SubmitOutcome :=
  if !validateReport req then .validationError db
  else
    match submitTx newId req user oracle f with
    | .error _ => .serverError db
    | .ok t =>
        .success
          { db with
            reports := db.reports ++ [t.report]
            media := db.media ++ t.mediaRows
            analyses := db.analyses ++ t.analysisRows }
          { reportId := t.report.id
            incidentType := t.report.incidentType
            description := t.report.description
            isAnonymous := t.report.isAnonymous
            status := t.report.status
            emergencyScore := t.responseScore }

/-- Database state carried by a submission outcome. -/
def SubmitOutcome.db : SubmitOutcome → DB
  | .validationError db => db
  | .serverError db => db
  | .success db _ => db

/-- Whether a submission outcome is the 201 success response. -/
def SubmitOutcome.isSuccess : SubmitOutcome → Bool
  | .success _ _ => true
  | _ => false

/-- The WHERE clause of `getPriorityQueue`:
`status: ['pending', 'reviewing'], isSpam: false`. -/
def queueFilter (r : ReportRow) : Bool :=
  (r.status == .pending || r.status == .reviewing) && !r.isSpam

/-- Sort key order of `ORDER BY emergencyScore DESC` on the nullable
`emergency_score` column: PostgreSQL places NULLs first under DESC, so
`none` ranks above every numeric score, and numeric scores compare with
`≥`. -/
def scoreGE : Option ℚ → Option ℚ → Prop
  | none, _ => True
  | some _, none => False
  | some a, some b => b ≤ a

instance : DecidableRel scoreGE := by
  intro a b
  cases a with
  | none => exact .isTrue trivial
  | some a =>
      cases b with
      | none => exact .isFalse (fun h => h)
      | some b => exact inferInstanceAs (Decidable (b ≤ a))

instance : IsTotal (Option ℚ) scoreGE where
  total a b := by
    cases a with
    | none => exact .inl trivial
    | some a =>
        cases b with
        | none => exact .inr trivial
        | some b => exact (le_total b a).imp id id

instance : IsTrans (Option ℚ) scoreGE where
  trans a b c hab hbc := by
    cases a with
    | none => trivial
    | some a =>
        cases b with
        | none => exact absurd hab (fun h => h)
        | some b =>
            cases c with
            | none => exact absurd hbc (fun h => h)
            | some c => exact le_trans hbc hab

/-- Row order used by the queue query: descending emergency score. -/
def reportGE (a b : ReportRow) : Prop := scoreGE a.emergencyScore b.emergencyScore

instance : DecidableRel reportGE := by
  intro a b
  exact inferInstanceAs (Decidable (scoreGE a.emergencyScore b.emergencyScore))

instance : IsTotal ReportRow reportGE where
  total a b := IsTotal.total (r := scoreGE) a.emergencyScore b.emergencyScore

instance : IsTrans ReportRow reportGE where
  trans a b c hab hbc := Trans.trans (r := scoreGE) (s := scoreGE) hab hbc

/-- `getPriorityQueue` (`src/server/src/controllers/authController.js`,
lines 459–493): filter to non-spam reports with status pending or reviewing,
sort by emergency score descending, and apply the `limit` query parameter,
which defaults to 20 (`const { limit = 20 } = req.query`).  A pure read: the
database state is untouched. -/
def getPriorityQueue (db : DB) (limitParam : Option Nat) : List ReportRow :=
  (List.insertionSort reportGE (db.reports.filter queueFilter)).take
    (limitParam.getD 20)

/-- The status strings accepted by the
`body('status').isIn(['pending', 'reviewing', 'assigned', 'resolved',
'closed'])` rule on `PATCH /api/reports/:id/status` (`src/unnamed/part_011`,
lines 174–184). -/
def validStatusInput (s : String) : Bool :=
  s == "pending" || s == "reviewing" || s == "assigned" ||
  s == "resolved" || s == "closed"

/-- Outcome of one `updateReportStatus` request, carrying the database state
after the request. -/
inductive UpdateOutcome
  | validationError (db : DB)
  | notFound (db : DB)
  | ok (db : DB) (newStatus : Status)
deriving DecidableEq, Repr

/-- Database state carried by an update outcome. -/
def UpdateOutcome.db : UpdateOutcome → DB
  | .validationError db => db
  | .notFound db => db
  | .ok db _ => db

/-- The activity-log description string built by `updateReportStatus`:
`` `Status updated to ${status}${note ? ': ' + note : ''}` ``. -/
def statusActivityDescription (target : Status) (note : Option String) :
    String :=
  "Status updated to " ++ statusString target ++
    (match note with
     | some n => if n.isEmpty then "" else ": " ++ n
     | none => "")

/-- Decoding of a validated status string into the status enum (on the
strings accepted by `validStatusInput` this is the evident bijection). -/
def parseStatus (s : String) : Status :=
  if s == "pending" then .pending
  else if s == "reviewing" then .reviewing
  else if s == "assigned" then .assigned
  else if s == "resolved" then .resolved
  else .closed

/-- `updateReportStatus` (`src/server/src/controllers/authController.js`,
lines 565–625), with the route's status validation in front: reject an
invalid status string, 404 when the report id does not exist, otherwise set
the report's status to the requested value — there is no check of the
current status — and append a `status_update` activity row, in one
transaction. -/
def updateReportStatus (db : DB) (reportId : Nat) (targetStr : String)
    (userId : Nat) (note : Option String) : UpdateOutcome :=
  if !validStatusInput targetStr then .validationError db
  else
    match db.reports.find? (fun r => r.id == reportId) with
    | none => .notFound db
    | some _ =>
        .ok
          { db with
            reports := db.reports.map
              (fun r =>
                if r.id == reportId then { r with status := parseStatus targetStr }
                else r)
            activities := db.activities ++
              [{ reportId := reportId
                 userId := userId
                 activityType := "status_update"
                 description := statusActivityDescription (parseStatus targetStr) note }] }
          (parseStatus targetStr)

/-- Tolerance named by the spec for the composite-formula property:
`1e-6`. -/
def scoreTolerance : ℚ := 1 / 1000000

/-- The composite formula of spec §4.2 applied to the three component scores
stored in an analysis row:
`0.4 × text_severity + 0.5 × media_severity + 0.1 × user_credibility`. -/
def weightedComposite (a : AnalysisRow) : ℚ :=
  0.4 * a.textSeverityScore + 0.5 * a.mediaSeverityScore +
    0.1 * a.userCredibilityScore

/-- Modelled from the spec: the claimed invariant that a persisted analysis
row's composite equals the weighted combination of its own stored component
scores, within floating-point tolerance 1e-6.  (This is the spec's property,
stated for comparison against the rows the code actually writes.) -/
def analysisMatchesFormula (a : AnalysisRow) : Prop :=
  |a.emergencyScore - weightedComposite a| ≤ scoreTolerance

/-! Concrete fixtures used by counterexamples and witnesses. -/

/-- An empty database. -/
def dbEmpty : DB := ⟨[], [], [], []⟩

/-- A description of more than 20 characters, passing the length rule. -/
def sampleDescription : String :=
  "Someone broke into the storefront late last night"

/-- A valid anonymous submission with no location, no contact info and no
files. -/
def anonymousRequest : SubmitRequest :=
  { incidentType := "physical"
    description := sampleDescription
    isAnonymous := true
    location := none
    contactInfo := none
    files := [] }

/-- A valid NON-anonymous submission that supplies no contact info at all. -/
def nonAnonymousNoContact : SubmitRequest :=
  { incidentType := "physical"
    description := sampleDescription
    isAnonymous := false
    location := none
    contactInfo := none
    files := [] }

/-- A submission whose incident category is outside the enum. -/
def badTypeRequest : SubmitRequest :=
  { anonymousRequest with incidentType := "noise" }

/-- An authenticated reporter with stored credibility 3. -/
def sampleUser : UserRow := ⟨7, 3⟩

/-- A sample oracle response with whole-number scores and zero spam
probability. -/
def sampleOracle : OracleResponse :=
  { textSeverityScore := 8
    mediaSeverityScore := 6
    userCredibilityScore := 2
    spamProbability := 0
    emergencyScore := 7
    aiNotes := "looks serious" }

/-- A report already resolved, used to exercise status transitions. -/
def resolvedReport : ReportRow :=
  { id := 5
    userId := none
    incidentType := "physical"
    description := sampleDescription
    locationLat := none
    locationLng := none
    locationAddress := none
    isAnonymous := true
    emergencyScore := some 4
    status := .resolved
    isSpam := false }

/-- A database holding only `resolvedReport`. -/
def dbWithResolved : DB := ⟨[resolvedReport], [], [], []⟩

/-- A pending non-spam report with score 5. -/
def queuedHigh : ReportRow :=
  { resolvedReport with id := 1, emergencyScore := some 5, status := .pending }

/-- A pending non-spam report with score 3. -/
def queuedLow : ReportRow :=
  { resolvedReport with id := 2, emergencyScore := some 3, status := .pending }

/-- A database with two reports that both match the queue filter. -/
def dbTwoQueued : DB := ⟨[queuedHigh, queuedLow], [], [], []⟩

/-! Shared elimination lemmas about the submission transaction. -/

/-- Case analysis of a committed submission transaction: the media rows are
always the mapped uploads, and the report/analysis rows are determined by
which of the three oracle outcomes occurred. -/
theorem submitTx_ok_cases {newId : Nat} {req : SubmitRequest}
    {user : Option UserRow} {oracle : OracleOutcome} {f : Faults} {t : TxResult}
    (h : submitTx newId req user oracle f = .ok t) :
    t.mediaRows = req.files.map (mediaRowOf newId) ∧
    ((∃ r, oracle = .ok r ∧ t.report = scoredReportRow newId req user r ∧
        t.analysisRows = [successAnalysisRow newId r] ∧
        t.responseScore = r.emergencyScore) ∨
     (oracle = .okEmpty ∧ t.report = newReportRow newId req user ∧
        t.analysisRows = [] ∧ t.responseScore = 0) ∨
     (oracle = .throws ∧ t.report = newReportRow newId req user ∧
        t.analysisRows = [fallbackAnalysisRow newId user] ∧
        t.responseScore = 0)) := by
  cases oracle with
  | ok r =>
      simp only [submitTx] at h
      split at h
      · cases h
      split at h
      · cases h
      split at h
      · cases h
      cases h
      exact ⟨rfl, Or.inl ⟨r, rfl, rfl, rfl, rfl⟩⟩
  | okEmpty =>
      simp only [submitTx] at h
      split at h
      · cases h
      split at h
      · cases h
      cases h
      exact ⟨rfl, Or.inr (Or.inl ⟨rfl, rfl, rfl, rfl⟩)⟩
  | throws =>
      simp only [submitTx] at h
      split at h
      · cases h
      split at h
      · cases h
      split at h
      · cases h
      cases h
      exact ⟨rfl, Or.inr (Or.inr ⟨rfl, rfl, rfl, rfl⟩)⟩

/-- Elimination of a successful `submitReport` run: validation passed, the
transaction committed, and the final state and response are built from the
committed rows. -/
theorem submitReport_success_cases {db : DB} {newId : Nat}
    {req : SubmitRequest} {user : Option UserRow} {oracle : OracleOutcome}
    {f : Faults} {db' : DB} {resp : SubmitResponse}
    (h : submitReport db newId req user oracle f = .success db' resp) :
    validateReport req = true ∧
    ∃ t, submitTx newId req user oracle f = .ok t ∧
      db' = { db with
              reports := db.reports ++ [t.report]
              media := db.media ++ t.mediaRows
              analyses := db.analyses ++ t.analysisRows } ∧
      resp = { reportId := t.report.id
               incidentType := t.report.incidentType
               description := t.report.description
               isAnonymous := t.report.isAnonymous
               status := t.report.status
               emergencyScore := t.responseScore } := by
  unfold submitReport at h
  split at h
  · cases h
  next hval =>
    refine ⟨by simpa using hval, ?_⟩
    split at h
    · cases h
    next t ht =>
      cases h
      exact ⟨t, ht, rfl, rfl⟩

/-- A server-error outcome of `submitReport` carries the original,
rolled-back database state. -/
theorem submitReport_serverError_db {db : DB} {newId : Nat}
    {req : SubmitRequest} {user : Option UserRow} {oracle : OracleOutcome}
    {f : Faults} {db'' : DB}
    (h : submitReport db newId req user oracle f = .serverError db'') :
    db'' = db := by
  unfold submitReport at h
  split at h
  · cases h
  split at h
  · cases h; rfl
  · cases h

/-- A validation-error outcome of `submitReport` carries the original
database state: rejection happens before any persistence. -/
theorem submitReport_validationError_db {db : DB} {newId : Nat}
    {req : SubmitRequest} {user : Option UserRow} {oracle : OracleOutcome}
    {f : Faults} {db'' : DB}
    (h : submitReport db newId req user oracle f = .validationError db'') :
    db'' = db := by
  unfold submitReport at h
  split at h
  · cases h; rfl
  split at h
  · cases h
  · cases h

/-- Helper: the fallback analysis row satisfies the weighted-composite
formula exactly when a tenth of the reporter credibility is within the
tolerance — because its stored composite is 0 while its stored credibility
component is the reporter's credibility. -/
theorem fallback_formula_iff (newId : Nat) (user : Option UserRow) :
    analysisMatchesFormula (fallbackAnalysisRow newId user) ↔
      |0.1 * reporterCredibility user| ≤ scoreTolerance := by
  unfold analysisMatchesFormula weightedComposite fallbackAnalysisRow
  norm_num

/-- C1, amended: the composite score persisted in an Analysis record is not
recomputed from the components stored beside it — on the success path it is
the oracle's returned `emergencyScore` copied verbatim, and on the fallback
path it is 0 even though the stored credibility component is nonzero; so the
0.4/0.5/0.1 weighted formula holds for a persisted record only when the
source values already satisfy it (in particular, the fallback record
satisfies it only when a tenth of the stored credibility is within the
1e-6 tolerance). -/
theorem persisted_composite_is_oracle_verbatim_or_zero
    (db : DB) (newId : Nat) (req : SubmitRequest) (user : Option UserRow)
    (oracle : OracleOutcome) (f : Faults) (db' : DB) (resp : SubmitResponse)
    (h : submitReport db newId req user oracle f = .success db' resp) :
    db'.analyses = db.analyses ++
      (match oracle with
       | .ok r => [successAnalysisRow newId r]
       | .okEmpty => []
       | .throws => [fallbackAnalysisRow newId user]) ∧
    (∀ r, (successAnalysisRow newId r).emergencyScore = r.emergencyScore) ∧
    (fallbackAnalysisRow newId user).emergencyScore = 0 ∧
    (analysisMatchesFormula (fallbackAnalysisRow newId user) ↔
      |0.1 * reporterCredibility user| ≤ scoreTolerance) := by
  obtain ⟨-, t, ht, hdb, -⟩ := submitReport_success_cases h
  obtain ⟨-, hcases⟩ := submitTx_ok_cases ht
  refine ⟨?_, fun r => rfl, rfl, fallback_formula_iff newId user⟩
  subst hdb
  rcases hcases with ⟨r, horacle, -, hrows, -⟩ | ⟨horacle, -, hrows, -⟩ |
      ⟨horacle, -, hrows, -⟩ <;> subst horacle <;> simp only [hrows]

/-- C2: when the oracle call throws (unreachable, timeout, or error status),
a valid submission still completes successfully: the fallback Analysis with
zero severities, the reporter's stored credibility (or 1 when anonymous),
zero spam probability, composite 0 and the 'AI analysis unavailable' note is
persisted, and the 201 response carries the created report with
emergencyScore 0. -/
theorem oracle_failure_still_succeeds_with_fallback
    (db : DB) (newId : Nat) (req : SubmitRequest) (user : Option UserRow)
    (hv : validateReport req = true) :
    submitReport db newId req user .throws noFaults =
      .success
        { db with
          reports := db.reports ++ [newReportRow newId req user]
          media := db.media ++ req.files.map (mediaRowOf newId)
          analyses := db.analyses ++ [fallbackAnalysisRow newId user] }
        { reportId := newId
          incidentType := req.incidentType
          description := req.description
          isAnonymous := req.isAnonymous
          status := .pending
          emergencyScore := 0 } ∧
    (fallbackAnalysisRow newId user).textSeverityScore = 0 ∧
    (fallbackAnalysisRow newId user).mediaSeverityScore = 0 ∧
    (fallbackAnalysisRow newId user).userCredibilityScore =
      reporterCredibility user ∧
    (fallbackAnalysisRow newId user).spamProbability = 0 ∧
    (fallbackAnalysisRow newId user).emergencyScore = 0 ∧
    (fallbackAnalysisRow newId user).aiNotes = "AI analysis unavailable" := by
  refine ⟨?_, rfl, rfl, rfl, rfl, rfl, rfl⟩
  simp only [submitReport, hv, Bool.not_true, Bool.false_eq_true, if_false,
    submitTx, noFaults, Bool.false_and, if_neg (by simp : ¬False)]
  rfl

/-- C5: on a submission where the oracle responds with a parsed body, the
created report row is flagged spam exactly when the returned spam
probability exceeds 0.8, and the composite returned by the oracle is
persisted both in the Analysis record and on the report row. -/
theorem spam_flag_iff_probability_above_threshold
    (db : DB) (newId : Nat) (req : SubmitRequest) (user : Option UserRow)
    (r : OracleResponse) (f : Faults) (db' : DB) (resp : SubmitResponse)
    (h : submitReport db newId req user (.ok r) f = .success db' resp) :
    db'.reports = db.reports ++ [scoredReportRow newId req user r] ∧
    ((scoredReportRow newId req user r).isSpam = true ↔
      r.spamProbability > 0.8) ∧
    (scoredReportRow newId req user r).emergencyScore =
      some r.emergencyScore ∧
    db'.analyses = db.analyses ++ [successAnalysisRow newId r] ∧
    (successAnalysisRow newId r).emergencyScore = r.emergencyScore := by
  obtain ⟨-, t, ht, hdb, -⟩ := submitReport_success_cases h
  obtain ⟨-, hcases⟩ := submitTx_ok_cases ht
  subst hdb
  rcases hcases with ⟨r', horacle, hrep, hrows, -⟩ | ⟨horacle, -⟩ | ⟨horacle, -⟩
  · obtain rfl : r' = r := by cases horacle; rfl
    rw [hrep, hrows]
    refine ⟨rfl, ?_, rfl, rfl, rfl⟩
    simp [scoredReportRow]
  · cases horacle
  · cases horacle

/-- C6: report intake is atomic with media-reference (and analysis)
persistence — a successful submission appends the report row, all of its
media rows and its analysis rows together in one commit; a persistence error
rolls the whole transaction back, leaving the database exactly as it was,
and is reported to the caller as a server error; a validation rejection also
touches nothing. -/
theorem submission_transaction_atomic
    (db : DB) (newId : Nat) (req : SubmitRequest) (user : Option UserRow)
    (oracle : OracleOutcome) (f : Faults) :
    (∀ db'', submitReport db newId req user oracle f = .serverError db'' →
      db'' = db) ∧
    (∀ db'', submitReport db newId req user oracle f = .validationError db'' →
      db'' = db) ∧
    (∀ db' resp, submitReport db newId req user oracle f = .success db' resp →
      ∃ rrow arows,
        db'.reports = db.reports ++ [rrow] ∧
        db'.media = db.media ++ req.files.map (mediaRowOf newId) ∧
        db'.analyses = db.analyses ++ arows) ∧
    (f.reportCreateFails = true → validateReport req = true →
      submitReport db newId req user oracle f = .serverError db) := by
  refine ⟨fun db'' h => submitReport_serverError_db h,
    fun db'' h => submitReport_validationError_db h, ?_, ?_⟩
  · intro db' resp h
    obtain ⟨-, t, ht, hdb, -⟩ := submitReport_success_cases h
    obtain ⟨hmedia, -⟩ := submitTx_ok_cases ht
    subst hdb
    exact ⟨t.report, t.analysisRows, rfl, by rw [hmedia], rfl⟩
  · intro hf hv
    simp [submitReport, hv, submitTx, hf]

/-- C7, amended: a successful submission appends at most one Analysis row —
exactly one when the oracle call throws (the fallback) or returns a parsed
body (the success row), and none when the oracle resolves with an empty
body; the rows for the new report are appended after the existing analyses,
which are never modified, and `updateReportStatus` never touches analysis
rows either. -/
theorem at_most_one_analysis_never_updated :
    (∀ db newId req user oracle f db' resp,
      submitReport db newId req user oracle f = .success db' resp →
      ∃ arows, db'.analyses = db.analyses ++ arows ∧ arows.length ≤ 1 ∧
        (∀ a ∈ arows, a.reportId = newId) ∧
        (arows = [] ↔ oracle = .okEmpty)) ∧
    (∀ db rid targetStr uid note,
      ((updateReportStatus db rid targetStr uid note).db).analyses =
        db.analyses) := by
  constructor
  · intro db newId req user oracle f db' resp h
    obtain ⟨-, t, ht, hdb, -⟩ := submitReport_success_cases h
    obtain ⟨-, hcases⟩ := submitTx_ok_cases ht
    subst hdb
    refine ⟨t.analysisRows, rfl, ?_⟩
    rcases hcases with ⟨r, horacle, -, hrows, -⟩ | ⟨horacle, -, hrows, -⟩ |
        ⟨horacle, -, hrows, -⟩ <;> subst horacle <;> rw [hrows]
    · exact ⟨by simp, by simp [successAnalysisRow], by simp⟩
    · exact ⟨by simp, by simp, by simp⟩
    · exact ⟨by simp, by simp [fallbackAnalysisRow], by simp⟩
  · intro db rid targetStr uid note
    unfold updateReportStatus
    split
    · rfl
    split
    · rfl
    · rfl

/-- C10: on the oracle-failure path, the persisted report row keeps its
creation defaults — `emergencyScore` stays null and `isSpam` stays false —
even though the HTTP response for the same submission reports
emergencyScore 0; only the success path (a parsed oracle body) writes the
score and spam flag onto the report row. -/
theorem fallback_leaves_report_row_defaults :
    (∀ db newId req user f db' resp,
      submitReport db newId req user .throws f = .success db' resp →
      db'.reports = db.reports ++ [newReportRow newId req user] ∧
      (newReportRow newId req user).emergencyScore = none ∧
      (newReportRow newId req user).isSpam = false ∧
      resp.emergencyScore = 0) ∧
    (∀ db newId req user r f db' resp,
      submitReport db newId req user (.ok r) f = .success db' resp →
      db'.reports = db.reports ++ [scoredReportRow newId req user r] ∧
      (scoredReportRow newId req user r).emergencyScore =
        some r.emergencyScore) := by
  constructor
  · intro db newId req user f db' resp h
    obtain ⟨-, t, ht, hdb, hresp⟩ := submitReport_success_cases h
    obtain ⟨-, hcases⟩ := submitTx_ok_cases ht
    subst hdb
    rcases hcases with ⟨r, horacle, -⟩ | ⟨horacle, -⟩ | ⟨-, hrep, -, hscore⟩
    · cases horacle
    · cases horacle
    · subst hresp
      rw [hrep, hscore]
      exact ⟨rfl, rfl, rfl, rfl⟩
  · intro db newId req user r f db' resp h
    obtain ⟨-, t, ht, hdb, -⟩ := submitReport_success_cases h
    obtain ⟨-, hcases⟩ := submitTx_ok_cases ht
    subst hdb
    rcases hcases with ⟨r', horacle, hrep, -⟩ | ⟨horacle, -⟩ | ⟨horacle, -⟩
    · obtain rfl : r' = r := by cases horacle; rfl
      rw [hrep]
      exact ⟨rfl, rfl⟩
    · cases horacle
    · cases horacle

/-- C3, amended: a report appears in the triage-queue results only if its
status is pending or reviewing and it is not flagged spam (so every spam
report and every assigned/resolved/closed report is absent, regardless of
score); conversely a report satisfying the filter does appear whenever the
number of reports satisfying the filter does not exceed the result limit —
with more matching reports than the limit, matching reports beyond the limit
are cut off. -/
theorem queue_membership_characterisation
    (db : DB) (lim : Option Nat) (r : ReportRow) :
    (r ∈ getPriorityQueue db lim → queueFilter r = true ∧ r ∈ db.reports) ∧
    (queueFilter r = true → r ∈ db.reports →
      (db.reports.filter queueFilter).length ≤ lim.getD 20 →
      r ∈ getPriorityQueue db lim) := by
  constructor
  · intro h
    have hsorted : r ∈ List.insertionSort reportGE (db.reports.filter queueFilter) :=
      List.Sublist.mem h (List.take_sublist _ _)
    have hfiltered : r ∈ db.reports.filter queueFilter :=
      (List.perm_insertionSort reportGE _).mem_iff.mp hsorted
    have := List.mem_filter.mp hfiltered
    exact ⟨this.2, this.1⟩
  · intro hq hmem hlen
    have hfiltered : r ∈ db.reports.filter queueFilter :=
      List.mem_filter.mpr ⟨hmem, hq⟩
    have hsorted : r ∈ List.insertionSort reportGE (db.reports.filter queueFilter) :=
      (List.perm_insertionSort reportGE _).mem_iff.mpr hfiltered
    have hlen' :
        (List.insertionSort reportGE (db.reports.filter queueFilter)).length ≤
          lim.getD 20 := by
      rw [(List.perm_insertionSort reportGE _).length_eq]
      exact hlen
    unfold getPriorityQueue
    rw [List.take_of_length_le hlen']
    exact hsorted

/-- C4: a triage-queue read with limit parameter `lim` (default 20) returns
at most that many rows, and the rows are sorted by emergency score
descending — every adjacent pair is related by `reportGE`, the
`ORDER BY emergencyScore DESC` key order in which a null score ranks first
and numeric scores compare with `≥`. -/
theorem queue_bounded_and_sorted_descending (db : DB) (lim : Option Nat) :
    (getPriorityQueue db lim).length ≤ lim.getD 20 ∧
    List.Chain' reportGE (getPriorityQueue db lim) := by
  constructor
  · exact List.length_take_le _ _
  · exact (List.Pairwise.sublist (List.take_sublist _ _)
      (List.sorted_insertionSort reportGE _)).chain'

/-- C8, amended: `updateReportStatus` performs no transition-legality check:
for a report that exists, it sets the status to whatever validated status
the request carries — regardless of the current status, so backward moves
(e.g. resolved back to pending) are possible. -/
theorem status_update_unconstrained
    (db : DB) (rid : Nat) (targetStr : String) (uid : Nat)
    (note : Option String) (r : ReportRow)
    (hvalid : validStatusInput targetStr = true)
    (hfind : db.reports.find? (fun x => x.id == rid) = some r) :
    updateReportStatus db rid targetStr uid note =
      .ok
        { db with
          reports := db.reports.map
            (fun x =>
              if x.id == rid then { x with status := parseStatus targetStr }
              else x)
          activities := db.activities ++
            [{ reportId := rid
               userId := uid
               activityType := "status_update"
               description :=
                 statusActivityDescription (parseStatus targetStr) note }] }
        (parseStatus targetStr) := by
  unfold updateReportStatus
  rw [hvalid]
  simp only [Bool.not_true, Bool.false_eq_true, if_false, hfind]

/-- C9, amended: `submitReport` rejects with a validation error, leaving the
database untouched, whenever the incident category is outside the enum, the
description is shorter than 20 characters, a supplied latitude is outside
[-90, 90], or a supplied longitude is outside [-180, 180]; the upload
middleware accepts at most five media files and only files within the
10 MB server-side ceiling.  Contact name/email/phone are NOT validated by
the server — that check exists only in the client form — so the claim's
contact-triple clause is dropped. -/
theorem validation_rejects_before_persistence
    (db : DB) (newId : Nat) (req : SubmitRequest) (user : Option UserRow)
    (oracle : OracleOutcome) (f : Faults) :
    ((validIncidentType req.incidentType = false ∨
      req.description.length < 20 ∨
      (∃ v, req.location.bind GeoLocation.lat = some v ∧ (v < -90 ∨ 90 < v)) ∨
      (∃ v, req.location.bind GeoLocation.lng = some v ∧ (v < -180 ∨ 180 < v))) →
      submitReport db newId req user oracle f = .validationError db) ∧
    (maxMediaFiles < req.files.length → uploadWithinLimits req.files = false) ∧
    (uploadWithinLimits req.files = true →
      ∀ fl ∈ req.files, fl.size ≤ maxFileSize) := by
  refine ⟨?_, ?_, ?_⟩
  · intro hbad
    have hv : validateReport req = false := by
      rcases hbad with htype | hshort | ⟨v, hlat, hout⟩ | ⟨v, hlng, hout⟩
      · simp [validateReport, htype]
      · simp [validateReport]
        intro h1 h2
        omega
      · unfold validateReport latOk
        rw [hlat]
        rcases hout with hlow | hhigh
        · have : decide (-90 ≤ v) = false := by
            simp only [decide_eq_false_iff_not]
            linarith
          simp [this]
        · have : decide (v ≤ 90) = false := by
            simp only [decide_eq_false_iff_not]
            linarith
          simp [this]
      · unfold validateReport lngOk
        rw [hlng]
        rcases hout with hlow | hhigh
        · have : decide (-180 ≤ v) = false := by
            simp only [decide_eq_false_iff_not]
            linarith
          simp [this]
        · have : decide (v ≤ 180) = false := by
            simp only [decide_eq_false_iff_not]
            linarith
          simp [this]
    simp [submitReport, hv]
  · intro hcount
    unfold uploadWithinLimits
    have : decide (req.files.length ≤ maxMediaFiles) = false := by
      simp only [decide_eq_false_iff_not]
      omega
    simp [this]
  · intro hok fl hfl
    unfold uploadWithinLimits at hok
    have := (Bool.and_eq_true _ _).mp hok
    have hall := List.all_eq_true.mp this.2 fl hfl
    simpa using hall

/-! Counterexamples refuting claims as stated. -/

/-- C1, counterexample: an anonymous submission whose oracle call throws
persists the fallback Analysis (components 0, 0, 1; composite 0), and that
record violates the claimed weighted-composite formula, since
0.4·0 + 0.5·0 + 0.1·1 = 0.1 differs from the stored composite 0 by far more
than the 1e-6 tolerance. -/
theorem fallback_analysis_violates_weighted_formula :
    (submitReport dbEmpty 0 anonymousRequest none .throws noFaults).db.analyses =
      [fallbackAnalysisRow 0 none] ∧
    ¬ analysisMatchesFormula (fallbackAnalysisRow 0 none) := by
  refine ⟨rfl, ?_⟩
  unfold analysisMatchesFormula weightedComposite fallbackAnalysisRow
    reporterCredibility scoreTolerance
  norm_num
  rw [show |(1:ℚ)/10| = 1/10 from abs_of_nonneg (by norm_num)]
  norm_num

/-- C3, counterexample: with two reports both matching the queue filter and
a limit of 1, the lower-scored matching report is absent from the queue
results, refuting the claimed "if and only if" membership condition. -/
theorem queue_limit_excludes_matching_report :
    queueFilter queuedLow = true ∧
    queuedLow ∈ dbTwoQueued.reports ∧
    getPriorityQueue dbTwoQueued (some 1) = [queuedHigh] ∧
    queuedLow ∉ getPriorityQueue dbTwoQueued (some 1) := by
  refine ⟨by decide, by decide, by decide, by decide⟩

/-- C7, counterexample: when the oracle resolves with an empty (falsy) body,
the `if (aiResponse.data)` guard skips analysis creation and no error is
thrown, so the submission succeeds yet the created report has zero Analysis
records — not exactly one. -/
theorem empty_oracle_body_creates_no_analysis :
    (submitReport dbEmpty 0 anonymousRequest none .okEmpty noFaults).isSuccess
      = true ∧
    (submitReport dbEmpty 0 anonymousRequest none .okEmpty noFaults).db.analyses
      = [] :=
  ⟨rfl, rfl⟩

/-- C8, counterexample: a report whose status is `resolved` is moved back to
`pending` by a single `updateReportStatus` call — a strictly backward
transition in the claimed order, refuting monotonicity. -/
theorem status_can_move_backward :
    resolvedReport.status = Status.resolved ∧
    ((updateReportStatus dbWithResolved 5 "pending" 1 none).db).reports =
      [{ resolvedReport with status := Status.pending }] ∧
    statusRank Status.pending < statusRank Status.resolved := by
  refine ⟨rfl, by decide, by decide⟩

/-- C9, counterexample: a non-anonymous submission carrying no contact
information at all is accepted by `submitReport` — the server-side validator
chain contains no contact-info rule, refuting the claim's contact-triple
clause. -/
theorem contact_info_not_validated_server_side :
    nonAnonymousNoContact.isAnonymous = false ∧
    nonAnonymousNoContact.contactInfo = none ∧
    (submitReport dbEmpty 0 nonAnonymousNoContact none .throws
      noFaults).isSuccess = true :=
  ⟨rfl, rfl, rfl⟩

/-! Witnesses instantiating the hypothesis-bearing claim theorems. -/

/-- C1, witness: the amended theorem applied to a concrete fallback run with
an authenticated reporter of credibility 3. -/
theorem persisted_composite_is_oracle_verbatim_or_zero_witness :
    submitReport dbEmpty 1 anonymousRequest (some sampleUser) .throws noFaults =
      .success
        ⟨[newReportRow 1 anonymousRequest (some sampleUser)], [],
          [fallbackAnalysisRow 1 (some sampleUser)], []⟩
        ⟨1, "physical", sampleDescription, true, .pending, 0⟩ ∧
    (⟨[newReportRow 1 anonymousRequest (some sampleUser)], [],
        [fallbackAnalysisRow 1 (some sampleUser)], []⟩ : DB).analyses =
      dbEmpty.analyses ++ [fallbackAnalysisRow 1 (some sampleUser)] := by
  have h : submitReport dbEmpty 1 anonymousRequest (some sampleUser) .throws
      noFaults =
      .success
        ⟨[newReportRow 1 anonymousRequest (some sampleUser)], [],
          [fallbackAnalysisRow 1 (some sampleUser)], []⟩
        ⟨1, "physical", sampleDescription, true, .pending, 0⟩ := rfl
  refine ⟨h, ?_⟩
  exact (persisted_composite_is_oracle_verbatim_or_zero dbEmpty 1
    anonymousRequest (some sampleUser) .throws noFaults _ _ h).1

/-- C2, witness: the theorem applied to a concrete anonymous submission. -/
theorem oracle_failure_still_succeeds_with_fallback_witness :
    validateReport anonymousRequest = true ∧
    submitReport dbEmpty 2 anonymousRequest none .throws noFaults =
      .success
        { dbEmpty with
          reports := dbEmpty.reports ++ [newReportRow 2 anonymousRequest none]
          media := dbEmpty.media ++ anonymousRequest.files.map (mediaRowOf 2)
          analyses := dbEmpty.analyses ++ [fallbackAnalysisRow 2 none] }
        { reportId := 2
          incidentType := anonymousRequest.incidentType
          description := anonymousRequest.description
          isAnonymous := anonymousRequest.isAnonymous
          status := .pending
          emergencyScore := 0 } :=
  ⟨by decide, (oracle_failure_still_succeeds_with_fallback dbEmpty 2
    anonymousRequest none (by decide)).1⟩

/-- C3, witness: the amended theorem applied to the two-report database with
a limit large enough for both, placing the lower-scored matching report in
the queue. -/
theorem queue_membership_characterisation_witness :
    queueFilter queuedLow = true ∧
    queuedLow ∈ dbTwoQueued.reports ∧
    (dbTwoQueued.reports.filter queueFilter).length ≤ (some 5).getD 20 ∧
    queuedLow ∈ getPriorityQueue dbTwoQueued (some 5) :=
  ⟨by decide, by decide, by decide,
    (queue_membership_characterisation dbTwoQueued (some 5) queuedLow).2
      (by decide) (by decide) (by decide)⟩

/-- C5, witness: the theorem applied to a concrete oracle response with spam
probability 0, whose created report is not flagged spam. -/
theorem spam_flag_iff_probability_above_threshold_witness :
    submitReport dbEmpty 3 anonymousRequest none (.ok sampleOracle) noFaults =
      .success
        ⟨[scoredReportRow 3 anonymousRequest none sampleOracle], [],
          [successAnalysisRow 3 sampleOracle], []⟩
        ⟨3, "physical", sampleDescription, true, .pending, 7⟩ ∧
    (scoredReportRow 3 anonymousRequest none sampleOracle).isSpam = false := by
  have h : submitReport dbEmpty 3 anonymousRequest none (.ok sampleOracle)
      noFaults =
      .success
        ⟨[scoredReportRow 3 anonymousRequest none sampleOracle], [],
          [successAnalysisRow 3 sampleOracle], []⟩
        ⟨3, "physical", sampleDescription, true, .pending, 7⟩ := rfl
  refine ⟨h, ?_⟩
  have hiff := (spam_flag_iff_probability_above_threshold dbEmpty 3
    anonymousRequest none sampleOracle noFaults _ _ h).2.1
  have hns : ¬ sampleOracle.spamProbability > 0.8 := by
    norm_num [sampleOracle]
  exact Bool.eq_false_iff.mpr (fun ht => hns (hiff.mp ht))

/-- C6, witness: the atomicity theorem applied with an injected
`Report.create` failure — the outcome is a server error over the unchanged
database. -/
theorem submission_transaction_atomic_witness :
    submitReport dbEmpty 4 anonymousRequest none .throws ⟨true, false, false⟩ =
      .serverError dbEmpty :=
  (submission_transaction_atomic dbEmpty 4 anonymousRequest none .throws
    ⟨true, false, false⟩).2.2.2 rfl (by decide)

/-- C7, witness: the amended theorem applied to a concrete fallback run —
the committed state carries at most one analysis row. -/
theorem at_most_one_analysis_never_updated_witness :
    submitReport dbEmpty 5 anonymousRequest none .throws noFaults =
      .success
        ⟨[newReportRow 5 anonymousRequest none], [],
          [fallbackAnalysisRow 5 none], []⟩
        ⟨5, "physical", sampleDescription, true, .pending, 0⟩ ∧
    (⟨[newReportRow 5 anonymousRequest none], [],
        [fallbackAnalysisRow 5 none], []⟩ : DB).analyses.length ≤ 1 := by
  have h : submitReport dbEmpty 5 anonymousRequest none .throws noFaults =
      .success
        ⟨[newReportRow 5 anonymousRequest none], [],
          [fallbackAnalysisRow 5 none], []⟩
        ⟨5, "physical", sampleDescription, true, .pending, 0⟩ := rfl
  obtain ⟨arows, heq, hlen, -, -⟩ :=
    at_most_one_analysis_never_updated.1 dbEmpty 5 anonymousRequest none
      .throws noFaults _ _ h
  refine ⟨h, ?_⟩
  rw [heq]
  simpa [dbEmpty] using hlen

/-- C8, witness: the amended theorem applied to the resolved-report
database with target status `reviewing`. -/
theorem status_update_unconstrained_witness :
    updateReportStatus dbWithResolved 5 "reviewing" 9 none =
      .ok
        { dbWithResolved with
          reports := dbWithResolved.reports.map
            (fun x =>
              if x.id == 5 then { x with status := parseStatus "reviewing" }
              else x)
          activities := dbWithResolved.activities ++
            [{ reportId := 5
               userId := 9
               activityType := "status_update"
               description :=
                 statusActivityDescription (parseStatus "reviewing") none }] }
        (parseStatus "reviewing") :=
  status_update_unconstrained dbWithResolved 5 "reviewing" 9 none
    resolvedReport (by decide) (by decide)

/-- C9, witness: the amended theorem applied to a submission with an invalid
incident category — rejected with the database untouched. -/
theorem validation_rejects_before_persistence_witness :
    validIncidentType badTypeRequest.incidentType = false ∧
    submitReport dbEmpty 6 badTypeRequest none .throws noFaults =
      .validationError dbEmpty :=
  ⟨by decide, (validation_rejects_before_persistence dbEmpty 6 badTypeRequest
    none .throws noFaults).1 (Or.inl (by decide))⟩

/-- C10, witness: the theorem applied to a concrete fallback run — the
persisted report row keeps score null and spam false. -/
theorem fallback_leaves_report_row_defaults_witness :
    submitReport dbEmpty 7 anonymousRequest none .throws noFaults =
      .success
        ⟨[newReportRow 7 anonymousRequest none], [],
          [fallbackAnalysisRow 7 none], []⟩
        ⟨7, "physical", sampleDescription, true, .pending, 0⟩ ∧
    (newReportRow 7 anonymousRequest none).emergencyScore = none ∧
    (newReportRow 7 anonymousRequest none).isSpam = false := by
  have h : submitReport dbEmpty 7 anonymousRequest none .throws noFaults =
      .success
        ⟨[newReportRow 7 anonymousRequest none], [],
          [fallbackAnalysisRow 7 none], []⟩
        ⟨7, "physical", sampleDescription, true, .pending, 0⟩ := rfl
  have hc := (fallback_leaves_report_row_defaults.1 dbEmpty 7 anonymousRequest
    none noFaults _ _ h)
  exact ⟨h, hc.2.1, hc.2.2.1⟩

end SafeGuard
